import Mathlib

/-!
# Verification of the IKEA RODRET multi-click classifier (`src/ikea_rodret.py`)

Shallow embedding of `MultiClickOnOffCluster`: the per-button click counters,
per-button settle timers, the dual-press sub-state machine, and the event
emission logic.  Time is modelled as `ℤ` (the source uses the event loop's
monotonic float clock; only order and differences against the two configured
thresholds matter).  Timers are modelled by their absolute fire time
(schedule time + `CLICK_TIMEOUT`); a cancelled timer is removed, mirroring the
source's `except asyncio.CancelledError: pass` handler which suppresses both
the emission and the state reset of a cancelled `_process_clicks` task.

A trace of presses (strictly ordered timestamps) is executed by `runT`:
before each press, every pending timer whose fire time is at or before the
press time fires (earliest first); at the end of the trace all remaining
timers fire.  Emissions are `(token, time)` pairs; token strings use the
`zhaquirks` constant values exercised by the repository's own tests.
-/

namespace Rodret

/-- 350 ms window for detecting multiple clicks (`CLICK_TIMEOUT` in the source). -/
def CLICK_TIMEOUT : ℤ := 350

/-- 200 ms window for detecting simultaneous presses (`DUAL_BUTTON_TIMEOUT`). -/
def DUAL_BUTTON_TIMEOUT : ℤ := 200

/-- The two physical buttons ("on" / "off" in the source). -/
inductive Button
  | on
  | off
deriving DecidableEq, Repr

/-- The other button (`other_button = "off" if button == "on" else "on"`). -/
def Button.other : Button → Button
  | .on => .off
  | .off => .on

/-- The string identity of a button, as used in emitted event names. -/
def buttonName : Button → String
  | .on => "on"
  | .off => "off"

/-! `zhaquirks.const` string constants, with the values the repository's tests
assert against. -/

def SHORT_PRESS : String := "remote_button_short_press"
def DOUBLE_PRESS : String := "remote_button_double_press"
def TRIPLE_PRESS : String := "remote_button_triple_press"
def QUADRUPLE_PRESS : String := "remote_button_quadruple_press"
def QUINTUPLE_PRESS : String := "remote_button_quintuple_press"
def COMMAND_BUTTON_DOUBLE : String := "button_double"

/-- The mutable fields of `MultiClickOnOffCluster`:
`_click_count`, `_click_timer` (modelled as the absolute fire time of a
pending, not-cancelled timer), `_last_button_press`, `_last_dual_press`,
`_first_button_in_dual`. -/
structure ClusterState where
  countOn : ℕ
  countOff : ℕ
  countDual : ℕ
  timerOn : Option ℤ
  timerOff : Option ℤ
  timerDual : Option ℤ
  lastOn : Option ℤ
  lastOff : Option ℤ
  lastDual : Option ℤ
  firstInDual : Option Button
deriving DecidableEq, Repr

/-- State right after `__init__`. -/
def initState : ClusterState :=
  { countOn := 0, countOff := 0, countDual := 0,
    timerOn := none, timerOff := none, timerDual := none,
    lastOn := none, lastOff := none, lastDual := none,
    firstInDual := none }

/-- `self._click_count[button]`. -/
def clickCount (s : ClusterState) : Button → ℕ
  | .on => s.countOn
  | .off => s.countOff

/-- Write `self._click_count[button]`. -/
def setClickCount (s : ClusterState) : Button → ℕ → ClusterState
  | .on, n => { s with countOn := n }
  | .off, n => { s with countOff := n }

/-- `self._click_timer[button]` (fire time of the pending timer, if any). -/
def clickTimer (s : ClusterState) : Button → Option ℤ
  | .on => s.timerOn
  | .off => s.timerOff

/-- Write `self._click_timer[button]`. -/
def setClickTimer (s : ClusterState) : Button → Option ℤ → ClusterState
  | .on, v => { s with timerOn := v }
  | .off, v => { s with timerOff := v }

/-- `self._last_button_press[button]`. -/
def lastButtonPress (s : ClusterState) : Button → Option ℤ
  | .on => s.lastOn
  | .off => s.lastOff

/-- Write `self._last_button_press[button]`. -/
def setLastButtonPress (s : ClusterState) : Button → Option ℤ → ClusterState
  | .on, v => { s with lastOn := v }
  | .off, v => { s with lastOff := v }

/-! Event name builders (`_emit_*` in the source). -/

def emit_single_click (button : Button) : String :=
  buttonName button ++ "_" ++ SHORT_PRESS

def emit_double_click (button : Button) : String :=
  buttonName button ++ "_" ++ DOUBLE_PRESS

def emit_triple_click (button : Button) : String :=
  buttonName button ++ "_" ++ TRIPLE_PRESS

def emit_quadruple_click (button : Button) : String :=
  buttonName button ++ "_" ++ QUADRUPLE_PRESS

def emit_quintuple_click (button : Button) : String :=
  buttonName button ++ "_" ++ QUINTUPLE_PRESS

def emit_dual_button_press : String := COMMAND_BUTTON_DOUBLE

def emit_dual_double_click : String := COMMAND_BUTTON_DOUBLE ++ "_" ++ DOUBLE_PRESS

def emit_dual_triple_click : String := COMMAND_BUTTON_DOUBLE ++ "_" ++ TRIPLE_PRESS

/-- `_emit_sequential_press`: `f"{first_button}_{second_button}"`. -/
def emit_sequential_press (first second : Button) : String :=
  buttonName first ++ "_" ++ buttonName second

/-- `_handle_dual_click`: bump the dual counter, record the dual press time,
cancel the pending dual timer and schedule `_process_dual_clicks` to fire
`CLICK_TIMEOUT` from now. -/
def handle_dual_click (s : ClusterState) (now : ℤ) : ClusterState :=
  { s with countDual := s.countDual + 1,
           lastDual := some now,
           timerDual := some (now + CLICK_TIMEOUT) }

/-- `_handle_click(button)` at time `now`: returns the new state and the
events emitted synchronously during the call (only the sequential branch
emits inline). -/
def handle_click (s : ClusterState) (button : Button) (now : ℤ) :
    ClusterState × List (String × ℤ) :=
  let s1 := setClickCount s button (clickCount s button + 1)
  let s1 := setLastButtonPress s1 button (some now)
  let other := button.other
  match lastButtonPress s1 other with
  | some tOther =>
    let timeDiff := now - tOther
    if |timeDiff| < DUAL_BUTTON_TIMEOUT then
      -- dual press: both last-press fields are populated in this branch
      let firstB : Button :=
        match s1.lastOn, s1.lastOff with
        | some a, some b => if a < b then .on else .off
        | _, _ => .off
      let s2 := setClickTimer (setClickTimer s1 button none) other none
      let s2 := { s2 with firstInDual := some firstB }
      let s2 := handle_dual_click s2 now
      let s2 := setClickCount (setClickCount s2 .on 0) .off 0
      let s2 := setLastButtonPress (setLastButtonPress s2 .on none) .off none
      (s2, [])
    else if DUAL_BUTTON_TIMEOUT < timeDiff ∧ timeDiff < CLICK_TIMEOUT then
      -- sequential press: cancel both timers, emit inline, reset
      let s2 := setClickTimer (setClickTimer s1 button none) other none
      let s2 := setClickCount (setClickCount s2 .on 0) .off 0
      let s2 := setLastButtonPress (setLastButtonPress s2 .on none) .off none
      (s2, [(emit_sequential_press other button, now)])
    else
      (setClickTimer s1 button (some (now + CLICK_TIMEOUT)), [])
  | none =>
    (setClickTimer s1 button (some (now + CLICK_TIMEOUT)), [])

/-- `_process_clicks(button)` resuming from its sleep at `fireTime`.
`cancelled` mirrors `asyncio.CancelledError` being raised during the sleep:
the handler swallows it, so nothing is emitted and no state is reset. -/
def process_clicks (s : ClusterState) (button : Button) (cancelled : Bool)
    (fireTime : ℤ) : ClusterState × List (String × ℤ) :=
  if cancelled then (s, [])
  else
    let c := clickCount s button
    let out : List (String × ℤ) :=
      if c = 1 then [(emit_single_click button, fireTime)]
      else if c = 2 then [(emit_double_click button, fireTime)]
      else if c = 3 then [(emit_triple_click button, fireTime)]
      else if c = 4 then [(emit_quadruple_click button, fireTime)]
      else if 5 ≤ c then [(emit_quintuple_click button, fireTime)]
      else []
    (setClickTimer (setClickCount s button 0) button none, out)

/-- `_process_dual_clicks` resuming from its sleep at `fireTime`. -/
def process_dual_clicks (s : ClusterState) (cancelled : Bool) (fireTime : ℤ) :
    ClusterState × List (String × ℤ) :=
  if cancelled then (s, [])
  else
    let c := s.countDual
    let out : List (String × ℤ) :=
      if c = 1 then [(emit_dual_button_press, fireTime)]
      else if c = 2 then [(emit_dual_double_click, fireTime)]
      else if 3 ≤ c then [(emit_dual_triple_click, fireTime)]
      else []
    ({ s with countDual := 0, timerDual := none }, out)

/-! ### Trace execution

The event loop is cooperative and single-threaded: a pending timer whose
deadline is at or before the next press's time runs before that press is
handled.  When several timers are due, the earliest deadline runs first. -/

/-- The three timer slots of the cluster. -/
inductive TimerId
  | ton
  | toff
  | tdual
deriving DecidableEq, Repr

/-- Fire time of a timer slot, if a timer is pending there. -/
def timerFire (s : ClusterState) : TimerId → Option ℤ
  | .ton => s.timerOn
  | .toff => s.timerOff
  | .tdual => s.timerDual

/-- Is `fire` within the deadline `bound` (`none` = no deadline)? -/
def withinBound (bound : Option ℤ) (fire : ℤ) : Bool :=
  match bound with
  | none => true
  | some t => fire ≤ t

/-- The pending timer with the earliest fire time not beyond `bound`
(first in slot order `on`, `off`, `dual` on a tie). -/
def nextDue (s : ClusterState) (bound : Option ℤ) : Option (TimerId × ℤ) :=
  let cands := [TimerId.ton, TimerId.toff, TimerId.tdual].filterMap
    (fun id => (timerFire s id).bind
      (fun f => if withinBound bound f then some (id, f) else none))
  cands.foldl
    (fun best c =>
      match best with
      | none => some c
      | some b => if c.2 < b.2 then some c else best)
    none

/-- Run the timer callback in a given slot (uncancelled resume). -/
def fireTimer (s : ClusterState) : TimerId × ℤ → ClusterState × List (String × ℤ)
  | (.ton, f) => process_clicks s .on false f
  | (.toff, f) => process_clicks s .off false f
  | (.tdual, f) => process_dual_clicks s false f

/-- Fire all pending timers due by `bound`, earliest first.  Firing a timer
never schedules another, so fuel 3 (the number of slots) is exact. -/
def fireLoop : ℕ → ClusterState → Option ℤ → ClusterState × List (String × ℤ)
  | 0, s, _ => (s, [])
  | fuel + 1, s, bound =>
    match nextDue s bound with
    | none => (s, [])
    | some c =>
      let p1 := fireTimer s c
      let p2 := fireLoop fuel p1.1 bound
      (p2.1, p1.2 ++ p2.2)

/-- Execute a press trace from a state: before each press, due timers fire;
after the last press, all remaining timers fire. -/
def runAux : ClusterState → List (Button × ℤ) → List (String × ℤ)
  | s, [] => (fireLoop 3 s none).2
  | s, (b, t) :: rest =>
    let p1 := fireLoop 3 s (some t)
    let p2 := handle_click p1.1 b t
    p1.2 ++ p2.2 ++ runAux p2.1 rest

/-- All emissions (with their times) produced by a press trace from the
initial state, the trace's timestamps strictly increasing. -/
def runT (presses : List (Button × ℤ)) : List (String × ℤ) :=
  runAux initState presses

/-- The emitted token sequence of a press trace. -/
def run (presses : List (Button × ℤ)) : List String :=
  (runT presses).map Prod.fst

/-- The cluster state reached after a press trace: timers due at or before
each press fire first, but there is no end-of-trace flush, so timers still
pending after the last press remain visible. -/
def runStateAux : ClusterState → List (Button × ℤ) → ClusterState
  | s, [] => s
  | s, (b, t) :: rest =>
    runStateAux (handle_click (fireLoop 3 s (some t)).1 b t).1 rest

/-- `runStateAux` from the freshly initialized cluster. -/
def runState (presses : List (Button × ℤ)) : ClusterState :=
  runStateAux initState presses

/-- `<button>_<ordinal(n)>` for `n` in 1..5 — the token vocabulary of the
single-button repeat path. -/
def repeatToken (b : Button) : ℕ → String
  | 1 => emit_single_click b
  | 2 => emit_double_click b
  | 3 => emit_triple_click b
  | 4 => emit_quadruple_click b
  | _ => emit_quintuple_click b

/-- The dual-press token for a (clamped) repeat count in 1..3. -/
def dualToken : ℕ → String
  | 1 => emit_dual_button_press
  | 2 => emit_dual_double_click
  | _ => emit_dual_triple_click

/-! ### Canonical intermediate states -/

/-- The state in the middle of an uninterrupted run of `k` presses of the
same button, the last one at time `t`: the button's counter holds `k`, its
settle timer is pending for `t + CLICK_TIMEOUT`, and its last press is
recorded; everything else is as freshly initialized. -/
def midState : Button → ℕ → ℤ → ClusterState
  | .on, k, t =>
    ⟨k, 0, 0, some (t + CLICK_TIMEOUT), none, none, some t, none, none, none⟩
  | .off, k, t =>
    ⟨0, k, 0, none, some (t + CLICK_TIMEOUT), none, none, some t, none, none⟩

/-- The state right after the `j`-th dual press was detected at time `tE`:
both per-button counters and last-press records are cleared, the dual counter
holds `j` and the dual timer is pending for `tE + CLICK_TIMEOUT`. -/
def dualMidState (j : ℕ) (tE : ℤ) (fid : Option Button) : ClusterState :=
  ⟨0, 0, j, none, none, some (tE + CLICK_TIMEOUT), none, none, some tE, fid⟩

/-! ### Small-step lemmas used by several proofs -/

/-- The state left behind by `_process_clicks(b)` after a run settled with
last press at `t`: counter and timer cleared, the last-press record kept. -/
def clearedState : Button → ℤ → ClusterState
  | .on, t => ⟨0, 0, 0, none, none, none, some t, none, none, none⟩
  | .off, t => ⟨0, 0, 0, none, none, none, none, some t, none, none⟩

/-- Consecutive same-button presses within the multi-click window: the next
press comes after the previous one but before its settle deadline. -/
def clickChain (a u : ℤ) : Prop := a < u ∧ u < a + CLICK_TIMEOUT

instance (a u : ℤ) : Decidable (clickChain a u) :=
  inferInstanceAs (Decidable (a < u ∧ u < a + CLICK_TIMEOUT))

/-- Every press in the list follows the previous one (starting from `a`)
within the multi-click window. -/
def chainOk : ℤ → List ℤ → Prop
  | _, [] => True
  | a, u :: us => clickChain a u ∧ chainOk u us

instance chainOkDec : (a : ℤ) → (l : List ℤ) → Decidable (chainOk a l)
  | _, [] => .isTrue trivial
  | a, u :: us =>
    have : Decidable (chainOk u us) := chainOkDec u us
    inferInstanceAs (Decidable (clickChain a u ∧ chainOk u us))

/-- The state after a single press of `b` at time `u` on top of arbitrary
dual-machine fields `(j, td, ld, fid)`: the button's counter is 1, its settle
timer pends for `u + CLICK_TIMEOUT`, the other button is clear. -/
def pressedState : Button → ℤ → ℕ → Option ℤ → Option ℤ → Option Button → ClusterState
  | .on, u, j, td, ld, fid =>
    ⟨1, 0, j, some (u + CLICK_TIMEOUT), none, td, some u, none, ld, fid⟩
  | .off, u, j, td, ld, fid =>
    ⟨0, 1, j, none, some (u + CLICK_TIMEOUT), td, none, some u, ld, fid⟩

/-- The press trace of a list of dual pairs: each pair `(u, δ)` is a press of
`b` at `u` followed by a press of the other button at `u + δ`. -/
def pairTrace (b : Button) (ps : List (ℤ × ℤ)) : List (Button × ℤ) :=
  ps.flatMap (fun p => [(b, p.1), (b.other, p.1 + p.2)])

/-- Wellformedness of a follow-up dual pair `q` after a pair ending at
`p.1 + p.2`: it starts later, its intra-pair gap is inside the coincidence
window, and its second press lands before the dual machine's pending settle
deadline. -/
def pairStep (p q : ℤ × ℤ) : Prop :=
  p.1 + p.2 < q.1 ∧ 0 ≤ q.2 ∧ q.2 < DUAL_BUTTON_TIMEOUT ∧
    q.1 + q.2 < p.1 + p.2 + CLICK_TIMEOUT

instance (p q : ℤ × ℤ) : Decidable (pairStep p q) :=
  inferInstanceAs (Decidable (p.1 + p.2 < q.1 ∧ 0 ≤ q.2 ∧ q.2 < DUAL_BUTTON_TIMEOUT ∧
    q.1 + q.2 < p.1 + p.2 + CLICK_TIMEOUT))

/-- Every pair in the list is a wellformed follow-up of its predecessor. -/
def pairChainOk : (ℤ × ℤ) → List (ℤ × ℤ) → Prop
  | _, [] => True
  | p, q :: qs => pairStep p q ∧ pairChainOk q qs

instance pairChainOkDec : (p : ℤ × ℤ) → (l : List (ℤ × ℤ)) → Decidable (pairChainOk p l)
  | _, [] => .isTrue trivial
  | p, q :: qs =>
    have : Decidable (pairChainOk q qs) := pairChainOkDec q qs
    inferInstanceAs (Decidable (pairStep p q ∧ pairChainOk q qs))

/-- The state after a second press at exactly the coincidence-window gap:
both buttons hold one press each, with separate pending timers. -/
def bothState : Button → ℤ → ClusterState
  | .on, u =>
    ⟨1, 1, 0, some (u + CLICK_TIMEOUT),
      some (u + DUAL_BUTTON_TIMEOUT + CLICK_TIMEOUT), none,
      some u, some (u + DUAL_BUTTON_TIMEOUT), none, none⟩
  | .off, u =>
    ⟨1, 1, 0, some (u + DUAL_BUTTON_TIMEOUT + CLICK_TIMEOUT),
      some (u + CLICK_TIMEOUT), none,
      some (u + DUAL_BUTTON_TIMEOUT), some u, none, none⟩

/-- The state after a fresh press of `b.other` at `t1` while `b` still holds
its stale last-press record `t0` from an already-settled sequence. -/
def staleState : Button → ℤ → ℤ → ClusterState
  | .on, t0, t1 => ⟨0, 1, 0, none, some (t1 + CLICK_TIMEOUT), none,
      some t0, some t1, none, none⟩
  | .off, t0, t1 => ⟨1, 0, 0, some (t1 + CLICK_TIMEOUT), none, none,
      some t1, some t0, none, none⟩

lemma nextDue_initState (bound : Option ℤ) : nextDue initState bound = none := rfl

lemma fireLoop_initState (n : ℕ) (bound : Option ℤ) :
    fireLoop n initState bound = (initState, []) := by
  cases n with
  | zero => rfl
  | succ m => simp [fireLoop, nextDue_initState]

/-- A press on a fresh cluster just starts that button's settle timer. -/
lemma handle_click_fresh (b : Button) (t : ℤ) :
    handle_click initState b t = (midState b 1 t, []) := by
  cases b <;> rfl

/-- Another press of the same button within its pending window increments the
counter and reschedules the settle timer (the other button is untouched). -/
lemma handle_click_same (b : Button) (k : ℕ) (t u : ℤ) :
    handle_click (midState b k t) b u = (midState b (k + 1) u, []) := by
  cases b <;> rfl

/-- No timer of `midState` is due strictly before `t + CLICK_TIMEOUT`. -/
lemma fireLoop_midState_notdue (b : Button) (k : ℕ) (t u : ℤ)
    (h : u < t + CLICK_TIMEOUT) :
    fireLoop 3 (midState b k t) (some u) = (midState b k t, []) := by
  have hb : ¬ (t + CLICK_TIMEOUT ≤ u) := by omega
  cases b <;>
    simp [fireLoop, nextDue, timerFire, midState, withinBound, hb]

/-- An uncancelled `_process_clicks` on a `k`-press run emits the clamped
repeat token and leaves the last-press record in place. -/
lemma process_clicks_midState (b : Button) (k : ℕ) (t ft : ℤ) (hk : 1 ≤ k) :
    process_clicks (midState b k t) b false ft =
      (clearedState b t, [(repeatToken b (min k 5), ft)]) := by
  rcases k with _ | _ | _ | _ | _ | n
  · omega
  all_goals cases b
  all_goals
    simp only [process_clicks, clickCount, midState, setClickCount,
      setClickTimer, clearedState, repeatToken, Bool.false_eq_true, if_false]
  all_goals norm_num
  all_goals
    simp [show n + 1 + 1 + 1 + 1 + 1 ≠ 2 by omega,
      show n + 1 + 1 + 1 + 1 + 1 ≠ 3 by omega,
      show n + 1 + 1 + 1 + 1 + 1 ≠ 4 by omega]

lemma fireLoop_none (n : ℕ) (s : ClusterState) (bound : Option ℤ)
    (h : nextDue s bound = none) : fireLoop n s bound = (s, []) := by
  cases n <;> simp [fireLoop, h]

lemma fireLoop_succ_some (n : ℕ) (s : ClusterState) (bound : Option ℤ)
    (c : TimerId × ℤ) (h : nextDue s bound = some c) :
    fireLoop (n + 1) s bound =
      ((fireLoop n (fireTimer s c).1 bound).1,
        (fireTimer s c).2 ++ (fireLoop n (fireTimer s c).1 bound).2) := by
  simp [fireLoop, h]

lemma nextDue_clearedState (b : Button) (t : ℤ) (bound : Option ℤ) :
    nextDue (clearedState b t) bound = none := by
  cases b <;> rfl

/-- Flushing a settled same-button run fires exactly its one pending timer. -/
lemma flush_midState (b : Button) (k : ℕ) (t : ℤ) (hk : 1 ≤ k) :
    fireLoop 3 (midState b k t) none =
      (clearedState b t, [(repeatToken b (min k 5), t + CLICK_TIMEOUT)]) := by
  cases b
  · rw [fireLoop_succ_some 2 (midState .on k t) none (.ton, t + CLICK_TIMEOUT) rfl]
    rw [show fireTimer (midState .on k t) (.ton, t + CLICK_TIMEOUT) =
        process_clicks (midState .on k t) .on false (t + CLICK_TIMEOUT) from rfl]
    rw [process_clicks_midState .on k t _ hk]
    rw [fireLoop_none 2 _ _ (nextDue_clearedState .on t none)]
    simp
  · rw [fireLoop_succ_some 2 (midState .off k t) none (.toff, t + CLICK_TIMEOUT) rfl]
    rw [show fireTimer (midState .off k t) (.toff, t + CLICK_TIMEOUT) =
        process_clicks (midState .off k t) .off false (t + CLICK_TIMEOUT) from rfl]
    rw [process_clicks_midState .off k t _ hk]
    rw [fireLoop_none 2 _ _ (nextDue_clearedState .off t none)]
    simp

/-- Core induction for the same-button repeat path: from the middle of a
`k`-press run, a chain of further presses of the same button ends in exactly
one clamped repeat emission, `CLICK_TIMEOUT` after the final press. -/
lemma runAux_same_button (b : Button) (ts : List ℤ) :
    ∀ (k : ℕ) (tp : ℤ), 1 ≤ k → chainOk tp ts →
      runAux (midState b k tp) (ts.map (fun u => (b, u))) =
        [(repeatToken b (min (k + ts.length) 5), ts.getLastD tp + CLICK_TIMEOUT)] := by
  induction ts with
  | nil =>
    intro k tp hk _
    simp [runAux, flush_midState b k tp hk]
  | cons u us ih =>
    intro k tp hk hchain
    obtain ⟨⟨_, h2⟩, hch⟩ := hchain
    simp only [List.map_cons, runAux]
    rw [fireLoop_midState_notdue b k tp u h2, handle_click_same]
    rw [ih (k + 1) u (by omega) hch]
    simp only [List.nil_append, List.length_cons, List.getLastD_cons]
    rw [show k + 1 + us.length = k + (us.length + 1) by omega]

/-- C1: a sequence of `n ≥ 1` presses of one button, each arriving before the
previous press's settle deadline, followed by idle, produces exactly one
emission: the repeat token for `min n 5`.  Six or more presses saturate to
the quintuple token rather than being rejected. -/
theorem c1_same_button_repeat_saturates (b : Button) (t0 : ℤ) (ts : List ℤ)
    (h : chainOk t0 ts) :
    run ((t0 :: ts).map (fun u => (b, u))) =
      [repeatToken b (min (t0 :: ts).length 5)] := by
  unfold run runT
  simp only [List.map_cons, runAux]
  rw [fireLoop_initState, handle_click_fresh,
    runAux_same_button b ts 1 t0 le_rfl h]
  simp [Nat.add_comm]

/-- Witness for C1: six presses of the `on` button, 10 ms apart, produce
exactly the saturated quintuple token. -/
theorem c1_same_button_repeat_saturates_witness :
    chainOk 0 [10, 20, 30, 40, 50] ∧
      run (((0 : ℤ) :: [10, 20, 30, 40, 50]).map (fun u => (Button.on, u))) =
        [repeatToken Button.on (min ((0 : ℤ) :: [10, 20, 30, 40, 50]).length 5)] :=
  ⟨by decide, c1_same_button_repeat_saturates Button.on 0 [10, 20, 30, 40, 50] (by decide)⟩

lemma midState_one (b : Button) (t : ℤ) :
    midState b 1 t = pressedState b t 0 none none none := by
  cases b <;> rfl

/-- A press of the other button within `DUAL_BUTTON_TIMEOUT` of a pending
single press lands in the dual branch: both buttons reset, the dual counter
increments and the dual timer restarts. -/
lemma handle_click_dual (b : Button) (u δ : ℤ) (j : ℕ) (td ld : Option ℤ)
    (fid : Option Button) (h0 : 0 ≤ δ) (h1 : δ < DUAL_BUTTON_TIMEOUT) :
    ∃ f, handle_click (pressedState b u j td ld fid) b.other (u + δ) =
      (dualMidState (j + 1) (u + δ) (some f), []) := by
  have habs : |δ| < DUAL_BUTTON_TIMEOUT := by rwa [abs_of_nonneg h0]
  cases b
  · refine ⟨if 0 < δ then Button.on else Button.off, ?_⟩
    simp [handle_click, pressedState, clickCount, setClickCount, setLastButtonPress,
      lastButtonPress, Button.other, setClickTimer, handle_dual_click, dualMidState, habs]
  · refine ⟨if δ < 0 then Button.on else Button.off, ?_⟩
    simp [handle_click, pressedState, clickCount, setClickCount, setLastButtonPress,
      lastButtonPress, Button.other, setClickTimer, handle_dual_click, dualMidState, habs]

/-- None of the timers of `pressedState` (button timer `u + CLICK_TIMEOUT`,
dual timer `td`) is due at a bound strictly below both. -/
lemma fireLoop_pressedState_notdue (b : Button) (u v : ℤ) (j : ℕ)
    (td ld : Option ℤ) (fid : Option Button)
    (hbtn : v < u + CLICK_TIMEOUT)
    (hdual : ∀ x, td = some x → ¬ x ≤ v) :
    fireLoop 3 (pressedState b u j td ld fid) (some v) =
      (pressedState b u j td ld fid, []) := by
  have hb : ¬ (u + CLICK_TIMEOUT ≤ v) := by omega
  have hdue : nextDue (pressedState b u j td ld fid) (some v) = none := by
    cases b <;> cases td <;>
      simp_all [nextDue, timerFire, pressedState, withinBound]
  exact fireLoop_none 3 _ _ hdue

/-- The dual machine's only pending timer is not due before `tE + CLICK_TIMEOUT`. -/
lemma fireLoop_dualMidState_notdue (j : ℕ) (tE v : ℤ) (fid : Option Button)
    (h : v < tE + CLICK_TIMEOUT) :
    fireLoop 3 (dualMidState j tE fid) (some v) = (dualMidState j tE fid, []) := by
  have hb : ¬ (tE + CLICK_TIMEOUT ≤ v) := by omega
  exact fireLoop_none 3 _ _ (by simp [nextDue, timerFire, dualMidState, withinBound, hb])

/-- The first press of a fresh pair on top of the dual machine's state just
starts that button's settle timer. -/
lemma handle_click_on_dualMid (b : Button) (j : ℕ) (tE u : ℤ) (fid : Option Button) :
    handle_click (dualMidState j tE fid) b u =
      (pressedState b u j (some (tE + CLICK_TIMEOUT)) (some tE) fid, []) := by
  cases b <;> rfl

/-- An uncancelled `_process_dual_clicks` with `j ≥ 1` accumulated dual
presses emits the dual token clamped at three. -/
lemma process_dual_clicks_dualMid (j : ℕ) (tE ft : ℤ) (fid : Option Button)
    (hj : 1 ≤ j) :
    process_dual_clicks (dualMidState j tE fid) false ft =
      (⟨0, 0, 0, none, none, none, none, none, some tE, fid⟩,
        [(dualToken (min j 3), ft)]) := by
  rcases j with _ | _ | _ | n
  · omega
  all_goals
    simp only [process_dual_clicks, dualMidState, dualToken, Bool.false_eq_true, if_false]
  all_goals norm_num
  simp [show n + 1 + 1 + 1 ≠ 1 by omega, show n + 1 + 1 + 1 ≠ 2 by omega,
    show min (n + 1 + 1 + 1) 3 = 3 by omega, dualToken]

/-- Flushing the settled dual machine fires exactly its one pending timer. -/
lemma flush_dualMidState (j : ℕ) (tE : ℤ) (fid : Option Button) (hj : 1 ≤ j) :
    fireLoop 3 (dualMidState j tE fid) none =
      (⟨0, 0, 0, none, none, none, none, none, some tE, fid⟩,
        [(dualToken (min j 3), tE + CLICK_TIMEOUT)]) := by
  rw [fireLoop_succ_some 2 (dualMidState j tE fid) none (.tdual, tE + CLICK_TIMEOUT) rfl]
  rw [show fireTimer (dualMidState j tE fid) (.tdual, tE + CLICK_TIMEOUT) =
      process_dual_clicks (dualMidState j tE fid) false (tE + CLICK_TIMEOUT) from rfl]
  rw [process_dual_clicks_dualMid j tE _ fid hj]
  rw [fireLoop_none 2 ⟨0, 0, 0, none, none, none, none, none, some tE, fid⟩ none rfl]
  simp

lemma dual_lt_click : DUAL_BUTTON_TIMEOUT < CLICK_TIMEOUT := by decide

/-- Core induction for repeated dual pairs: from the settled dual machine
with `j` pairs recorded, a wellformed chain of further pairs of the same
orientation ends in exactly one dual emission, clamped at three, exactly
`CLICK_TIMEOUT` after the final press of the final pair. -/
lemma runAux_dual_pairs (b : Button) (ps : List (ℤ × ℤ)) :
    ∀ (j : ℕ) (p : ℤ × ℤ) (fid : Option Button), 1 ≤ j → pairChainOk p ps →
      runAux (dualMidState j (p.1 + p.2) fid) (pairTrace b ps) =
        [(dualToken (min (j + ps.length) 3),
          (ps.getLastD p).1 + (ps.getLastD p).2 + CLICK_TIMEOUT)] := by
  induction ps with
  | nil =>
    intro j p fid hj _
    simp [runAux, pairTrace, flush_dualMidState j _ fid hj]
  | cons q qs ih =>
    intro j p fid hj hchain
    obtain ⟨⟨hlt, h0, h1, hdl⟩, hch⟩ := hchain
    have hdc := dual_lt_click
    simp only [pairTrace, List.flatMap_cons, List.cons_append, List.nil_append]
    simp only [runAux]
    rw [fireLoop_dualMidState_notdue j _ _ fid (by omega)]
    rw [handle_click_on_dualMid]
    rw [fireLoop_pressedState_notdue b q.1 (q.1 + q.2) j _ _ fid (by omega)
      (by intro x hx; injection hx with hx; omega)]
    obtain ⟨f, hf⟩ := handle_click_dual b q.1 q.2 j
      (some (p.1 + p.2 + CLICK_TIMEOUT)) (some (p.1 + p.2)) fid h0 h1
    rw [hf]
    have hres := ih (j + 1) q (some f) (by omega) hch
    simp only [List.nil_append]
    rw [show pairTrace b qs = qs.flatMap (fun p => [(b, p.1), (b.other, p.1 + p.2)])
      from rfl] at hres
    rw [hres, List.length_cons, List.getLastD_cons,
      show j + 1 + qs.length = j + (qs.length + 1) by omega]

/-- A full run of one or more coincident pairs: exactly one dual emission,
clamped at three, `CLICK_TIMEOUT` after the final press of the final pair. -/
lemma runT_dual_pairs (b : Button) (q0 : ℤ × ℤ) (ps : List (ℤ × ℤ))
    (h0 : 0 ≤ q0.2) (h1 : q0.2 < DUAL_BUTTON_TIMEOUT) (hch : pairChainOk q0 ps) :
    runT (pairTrace b (q0 :: ps)) =
      [(dualToken (min (ps.length + 1) 3),
        (ps.getLastD q0).1 + (ps.getLastD q0).2 + CLICK_TIMEOUT)] := by
  have hdc := dual_lt_click
  unfold runT
  simp only [pairTrace, List.flatMap_cons, List.cons_append, List.nil_append]
  simp only [runAux]
  rw [fireLoop_initState, handle_click_fresh, midState_one]
  rw [fireLoop_pressedState_notdue b q0.1 (q0.1 + q0.2) 0 none none none
    (by omega) (by intro x hx; cases hx)]
  obtain ⟨f, hf⟩ := handle_click_dual b q0.1 q0.2 0 none none none h0 h1
  rw [hf]
  have hres := runAux_dual_pairs b ps 1 q0 (some f) le_rfl hch
  rw [show pairTrace b ps = ps.flatMap (fun p => [(b, p.1), (b.other, p.1 + p.2)])
    from rfl] at hres
  simp only [List.nil_append]
  rw [hres, Nat.add_comm 1 ps.length]

/-- Amended C3: repeated coincident pairs accumulate in the dual counter and
settle into exactly one dual token clamped at three (not five): counts of
three or more all emit the dual-triple token. -/
theorem c3_amended_dual_repeat_caps_at_three (b : Button) (q0 : ℤ × ℤ)
    (ps : List (ℤ × ℤ)) (h0 : 0 ≤ q0.2) (h1 : q0.2 < DUAL_BUTTON_TIMEOUT)
    (hch : pairChainOk q0 ps) :
    run (pairTrace b (q0 :: ps)) = [dualToken (min (ps.length + 1) 3)] := by
  unfold run
  rw [runT_dual_pairs b q0 ps h0 h1 hch]
  simp

/-- Counterexample to C3 as stated: four coincident pairs (k = 4) emit the
dual-triple token, not a token for `min 4 5 = 4` repeats — the dual
vocabulary stops at triple, so the claimed `dual_quadruple` never appears. -/
theorem c3_counterexample_four_pairs_emit_triple :
    run [(Button.on, 0), (.off, 10), (.on, 100), (.off, 110),
         (.on, 200), (.off, 210), (.on, 300), (.off, 310)] =
      [emit_dual_triple_click] ∧
    emit_dual_triple_click ≠ COMMAND_BUTTON_DOUBLE ++ "_" ++ QUADRUPLE_PRESS := by
  exact ⟨by decide, by decide⟩

/-- Witness for the amended C3: four pairs of `on`-then-`off` presses, each
pair 10 ms apart and pairs 90 ms from each other, settle into the single
clamped `dual_triple` emission. -/
theorem c3_amended_witness :
    (0 : ℤ) ≤ (10 : ℤ) ∧ (10 : ℤ) < DUAL_BUTTON_TIMEOUT ∧
      pairChainOk ((0 : ℤ), (10 : ℤ)) [(100, 10), (200, 10), (300, 10)] ∧
      run (pairTrace Button.on
          (((0 : ℤ), (10 : ℤ)) :: [(100, 10), (200, 10), (300, 10)])) =
        [dualToken (min ([((100 : ℤ), (10 : ℤ)), (200, 10), (300, 10)].length + 1) 3)] :=
  ⟨by decide, by decide, by decide,
    c3_amended_dual_repeat_caps_at_three Button.on (0, 10)
      [(100, 10), (200, 10), (300, 10)] (by decide) (by decide) (by decide)⟩

/-- C6: two presses of different buttons with gap inside the coincidence
window and no further input settle into exactly one emission, the dual
single-press token, `CLICK_TIMEOUT` after the second press. -/
theorem c6_dual_single (b : Button) (t0 δ : ℤ) (h0 : 0 ≤ δ)
    (h1 : δ < DUAL_BUTTON_TIMEOUT) :
    runT [(b, t0), (b.other, t0 + δ)] =
      [(emit_dual_button_press, t0 + δ + CLICK_TIMEOUT)] := by
  have hdc := dual_lt_click
  unfold runT
  simp only [runAux]
  rw [fireLoop_initState, handle_click_fresh, midState_one]
  rw [fireLoop_pressedState_notdue b t0 (t0 + δ) 0 none none none
    (by omega) (by intro x hx; cases hx)]
  obtain ⟨f, hf⟩ := handle_click_dual b t0 δ 0 none none none h0 h1
  rw [hf]
  rw [flush_dualMidState 1 (t0 + δ) (some f) le_rfl]
  simp [dualToken]

/-- Witness for C6: `on` at 0 then `off` at 100 ms emit exactly
`button_double` at 450 ms. -/
theorem c6_dual_single_witness :
    (0 : ℤ) ≤ 100 ∧ (100 : ℤ) < DUAL_BUTTON_TIMEOUT ∧
      runT [(Button.on, 0), (Button.on.other, 0 + 100)] =
        [(emit_dual_button_press, 0 + 100 + CLICK_TIMEOUT)] :=
  ⟨by decide, by decide, c6_dual_single Button.on 0 100 (by decide) (by decide)⟩

lemma dual_pos : (0 : ℤ) < DUAL_BUTTON_TIMEOUT := by decide

/-- A press of the other button with gap strictly between the two windows
lands in the sequential branch: the token naming both buttons in arrival
order is emitted immediately, and both buttons reset (dual fields kept). -/
lemma handle_click_seq (b : Button) (u δ : ℤ) (j : ℕ) (td ld : Option ℤ)
    (fid : Option Button) (hd : DUAL_BUTTON_TIMEOUT < δ) (hc : δ < CLICK_TIMEOUT) :
    handle_click (pressedState b u j td ld fid) b.other (u + δ) =
      (⟨0, 0, j, none, none, td, none, none, ld, fid⟩,
        [(emit_sequential_press b b.other, u + δ)]) := by
  have h0 : (0 : ℤ) < δ := lt_trans dual_pos hd
  have habs : ¬ |δ| < DUAL_BUTTON_TIMEOUT := by
    rw [abs_of_nonneg (le_of_lt h0)]; omega
  cases b <;>
    simp [handle_click, pressedState, clickCount, setClickCount, setLastButtonPress,
      lastButtonPress, Button.other, setClickTimer, habs, hd, hc]

/-- A lone press settles into exactly its single-click token. -/
lemma runAux_single (b : Button) (t : ℤ) :
    runAux initState [(b, t)] = [(emit_single_click b, t + CLICK_TIMEOUT)] := by
  simp only [runAux]
  rw [fireLoop_initState, handle_click_fresh]
  rw [flush_midState b 1 t le_rfl]
  norm_num [repeatToken]

/-- A cross-button pair with gap strictly between the two windows emits the
sequential token at the second press and resets the cluster to its initial
state, so the rest of the trace continues independently. -/
lemma runAux_seq_head (b : Button) (t0 δ : ℤ) (rest : List (Button × ℤ))
    (hd : DUAL_BUTTON_TIMEOUT < δ) (hc : δ < CLICK_TIMEOUT) :
    runAux initState ((b, t0) :: (b.other, t0 + δ) :: rest) =
      (emit_sequential_press b b.other, t0 + δ) :: runAux initState rest := by
  simp only [runAux]
  rw [fireLoop_initState, handle_click_fresh, midState_one]
  rw [fireLoop_pressedState_notdue b t0 (t0 + δ) 0 none none none
    (by omega) (by intro x hx; cases hx)]
  rw [handle_click_seq b t0 δ 0 none none none hd hc]
  rw [show (⟨0, 0, 0, none, none, none, none, none, none, none⟩ : ClusterState) =
    initState from rfl]
  simp

/-- At a gap of exactly `DUAL_BUTTON_TIMEOUT`, neither the dual test
(strict `<`) nor the sequential test (strict `>`) holds: the press falls
through to independent per-button handling. -/
lemma handle_click_exact_window (b : Button) (u : ℤ) :
    handle_click (midState b 1 u) b.other (u + DUAL_BUTTON_TIMEOUT) =
      (bothState b u, []) := by
  have habs : ¬ |DUAL_BUTTON_TIMEOUT| < DUAL_BUTTON_TIMEOUT := by decide
  have hlt : ¬ (DUAL_BUTTON_TIMEOUT < DUAL_BUTTON_TIMEOUT) := lt_irrefl _
  cases b <;>
    simp [handle_click, midState, clickCount, setClickCount, setLastButtonPress,
      lastButtonPress, Button.other, setClickTimer, bothState, habs, hlt]

/-- Flushing `bothState` fires the two per-button timers in deadline order,
emitting two independent single-press tokens. -/
lemma flush_bothState (b : Button) (u : ℤ) :
    (fireLoop 3 (bothState b u) none).2 =
      [(emit_single_click b, u + CLICK_TIMEOUT),
       (emit_single_click b.other, u + DUAL_BUTTON_TIMEOUT + CLICK_TIMEOUT)] := by
  have h1 : ¬ (u + DUAL_BUTTON_TIMEOUT + CLICK_TIMEOUT < u + CLICK_TIMEOUT) := by
    have := dual_pos; omega
  have h2 : (0 : ℤ) < DUAL_BUTTON_TIMEOUT := dual_pos
  have h3 : ¬ (DUAL_BUTTON_TIMEOUT < (0 : ℤ)) := not_lt.mpr (le_of_lt dual_pos)
  cases b <;>
    simp [fireLoop, nextDue, timerFire, bothState, withinBound, fireTimer,
      process_clicks, clickCount, setClickCount, setClickTimer, Button.other,
      h1, h2, h3]

/-- Like `flush_midState`, but triggered because the settle deadline falls
at or before the bound `v` (the time of the next incoming press). -/
lemma fireLoop_midState_due (b : Button) (k : ℕ) (t v : ℤ) (hk : 1 ≤ k)
    (h : t + CLICK_TIMEOUT ≤ v) :
    fireLoop 3 (midState b k t) (some v) =
      (clearedState b t, [(repeatToken b (min k 5), t + CLICK_TIMEOUT)]) := by
  cases b
  · rw [fireLoop_succ_some 2 (midState .on k t) (some v) (.ton, t + CLICK_TIMEOUT)
      (by simp [nextDue, timerFire, midState, withinBound, h])]
    rw [show fireTimer (midState .on k t) (.ton, t + CLICK_TIMEOUT) =
        process_clicks (midState .on k t) .on false (t + CLICK_TIMEOUT) from rfl]
    rw [process_clicks_midState .on k t _ hk]
    rw [fireLoop_none 2 _ _ (nextDue_clearedState .on t (some v))]
    simp
  · rw [fireLoop_succ_some 2 (midState .off k t) (some v) (.toff, t + CLICK_TIMEOUT)
      (by simp [nextDue, timerFire, midState, withinBound, h])]
    rw [show fireTimer (midState .off k t) (.toff, t + CLICK_TIMEOUT) =
        process_clicks (midState .off k t) .off false (t + CLICK_TIMEOUT) from rfl]
    rw [process_clicks_midState .off k t _ hk]
    rw [fireLoop_none 2 _ _ (nextDue_clearedState .off t (some v))]
    simp

/-- A press of the other button more than `CLICK_TIMEOUT` after `b`'s stale
last-press record falls through both the dual and the sequential tests. -/
lemma handle_click_stale (b : Button) (t0 t1 : ℤ) (h : t0 + CLICK_TIMEOUT < t1) :
    handle_click (clearedState b t0) b.other t1 = (staleState b t0 t1, []) := by
  have hdc := dual_lt_click
  have hdp := dual_pos
  have habs : ¬ |t1 - t0| < DUAL_BUTTON_TIMEOUT := by
    rw [abs_of_nonneg (by omega)]; omega
  have hseq : ¬ (t1 - t0 < CLICK_TIMEOUT) := by omega
  cases b <;>
    simp [handle_click, clearedState, clickCount, setClickCount, setLastButtonPress,
      lastButtonPress, Button.other, setClickTimer, staleState, habs, hseq]

/-- Flushing `staleState` fires the one pending timer of the new sequence. -/
lemma flush_staleState (b : Button) (t0 t1 : ℤ) :
    (fireLoop 3 (staleState b t0 t1) none).2 =
      [(emit_single_click b.other, t1 + CLICK_TIMEOUT)] := by
  cases b <;> rfl

/-- Counterexample to C2 as stated: at a gap of exactly
`DUAL_BUTTON_TIMEOUT`, the pair is not classified as a sequential gesture;
the run emits two independent single-press tokens instead. -/
theorem c2_counterexample_exact_gap_not_sequential :
    run [(Button.on, 0), (Button.off, DUAL_BUTTON_TIMEOUT)] =
      [emit_single_click .on, emit_single_click .off] ∧
    run [(Button.on, 0), (Button.off, DUAL_BUTTON_TIMEOUT)] ≠
      [emit_sequential_press .on .off] :=
  ⟨by decide, by decide⟩

/-- Amended C2: the dual test uses strict `<` and the sequential test strict
`>`, so a gap exactly equal to `DUAL_BUTTON_TIMEOUT` is classified as
neither: the two presses fall through to independent per-button handling and
each settles separately into its own single-press token. -/
theorem c2_amended_exact_gap_falls_through (b : Button) (t0 : ℤ) :
    runT [(b, t0), (b.other, t0 + DUAL_BUTTON_TIMEOUT)] =
      [(emit_single_click b, t0 + CLICK_TIMEOUT),
       (emit_single_click b.other, t0 + DUAL_BUTTON_TIMEOUT + CLICK_TIMEOUT)] := by
  have hdc := dual_lt_click
  unfold runT
  simp only [runAux]
  rw [fireLoop_initState, handle_click_fresh]
  rw [fireLoop_midState_notdue b 1 t0 (t0 + DUAL_BUTTON_TIMEOUT) (by omega)]
  rw [handle_click_exact_window b t0]
  rw [flush_bothState b t0]
  simp

/-- Counterexample to C4 as stated: the three-press mixed sequence
`on, off, on` with sequential gaps does not yield one concatenated
`on_off_on` token; the second press already emits `on_off` and resets, and
the third press settles separately — two emissions, not one. -/
theorem c4_counterexample_three_press_two_emissions :
    runT [(Button.on, 0), (Button.off, 250), (Button.on, 500)] =
      [(emit_sequential_press .on .off, 250), (emit_single_click .on, 850)] ∧
    (runT [(Button.on, 0), (Button.off, 250), (Button.on, 500)]).length ≠ 1 :=
  ⟨by decide, by decide⟩

/-- Amended C4: sequential detection is pairwise and immediate — the first
cross-button press with gap strictly between the two windows emits the
two-name sequential token at once and resets all state; a third press then
starts a fresh sequence and settles into its own single-press token. -/
theorem c4_amended_mixed_sequence_splits (b : Button) (t0 g1 g2 : ℤ)
    (hd : DUAL_BUTTON_TIMEOUT < g1) (hc : g1 < CLICK_TIMEOUT) (_hg : 0 < g2) :
    runT [(b, t0), (b.other, t0 + g1), (b, t0 + g1 + g2)] =
      [(emit_sequential_press b b.other, t0 + g1),
       (emit_single_click b, t0 + g1 + g2 + CLICK_TIMEOUT)] := by
  unfold runT
  rw [runAux_seq_head b t0 g1 [(b, t0 + g1 + g2)] hd hc]
  rw [runAux_single b (t0 + g1 + g2)]

/-- Witness for the amended C4 at `on, off, on` with 250 ms gaps. -/
theorem c4_amended_witness :
    DUAL_BUTTON_TIMEOUT < (250 : ℤ) ∧ (250 : ℤ) < CLICK_TIMEOUT ∧ (0 : ℤ) < 250 ∧
      runT [(Button.on, 0), (Button.on.other, 0 + 250), (Button.on, 0 + 250 + 250)] =
        [(emit_sequential_press Button.on Button.on.other, 0 + 250),
         (emit_single_click Button.on, 0 + 250 + 250 + CLICK_TIMEOUT)] :=
  ⟨by decide, by decide, by decide,
    c4_amended_mixed_sequence_splits Button.on 0 250 250 (by decide) (by decide) (by decide)⟩

/-- Counterexample to C5 as stated: the sequential token is emitted at the
very moment of the second press — strictly before any settle timer could
fire — and after two presses at the exact window gap, both per-button
timers are outstanding simultaneously (a press does not cancel the other
button's pending timer). -/
theorem c5_counterexample_emit_before_settle :
    runT [(Button.on, 0), (Button.off, 250)] =
      [(emit_sequential_press .on .off, 250)] ∧
    (250 : ℤ) < 250 + CLICK_TIMEOUT ∧
    (handle_click (handle_click initState .on 0).1 .off DUAL_BUTTON_TIMEOUT).1.timerOn =
      some (0 + CLICK_TIMEOUT) ∧
    (handle_click (handle_click initState .on 0).1 .off DUAL_BUTTON_TIMEOUT).1.timerOff =
      some (DUAL_BUTTON_TIMEOUT + CLICK_TIMEOUT) :=
  ⟨by decide, by decide, by decide, by decide⟩

/-- Amended C5: every same-button repeat sequence (any length) produces its
unique emission exactly `CLICK_TIMEOUT` after its final press, when that
button's settle timer fires; every repeated-dual sequence likewise settles
exactly `CLICK_TIMEOUT` after the final press of its final pair, via the
dual timer; the sequential token alone is emitted at the very moment of the
second press, with no settle delay; and the `on`, `off` and dual timers are
separate — after the trace `on@0, off@10, on@100, off@300` all three are
pending at once, so a press does not cancel the other timers. -/
theorem c5_amended_settle_except_sequential (b : Button) (t0 g : ℤ)
    (ts : List ℤ) (q0 : ℤ × ℤ) (ps : List (ℤ × ℤ))
    (hts : chainOk t0 ts)
    (h0 : 0 ≤ q0.2) (h1 : q0.2 < DUAL_BUTTON_TIMEOUT) (hch : pairChainOk q0 ps)
    (hd : DUAL_BUTTON_TIMEOUT < g) (hc : g < CLICK_TIMEOUT) :
    runT ((t0 :: ts).map (fun u => (b, u))) =
      [(repeatToken b (min (t0 :: ts).length 5), ts.getLastD t0 + CLICK_TIMEOUT)] ∧
    runT (pairTrace b (q0 :: ps)) =
      [(dualToken (min (ps.length + 1) 3),
        (ps.getLastD q0).1 + (ps.getLastD q0).2 + CLICK_TIMEOUT)] ∧
    runT [(b, t0), (b.other, t0 + g)] =
      [(emit_sequential_press b b.other, t0 + g)] ∧
    ((runState [(Button.on, 0), (.off, 10), (.on, 100), (.off, 300)]).timerOn =
        some 450 ∧
      (runState [(Button.on, 0), (.off, 10), (.on, 100), (.off, 300)]).timerOff =
        some 650 ∧
      (runState [(Button.on, 0), (.off, 10), (.on, 100), (.off, 300)]).timerDual =
        some 360) := by
  refine ⟨?_, runT_dual_pairs b q0 ps h0 h1 hch, ?_, by decide⟩
  · unfold runT
    simp only [List.map_cons, runAux]
    rw [fireLoop_initState, handle_click_fresh,
      runAux_same_button b ts 1 t0 le_rfl hts]
    simp [Nat.add_comm]
  · unfold runT
    rw [runAux_seq_head b t0 g [] hd hc]
    simp [runAux, fireLoop_initState]

/-- Witness for the amended C5: a three-press repeat settling at its last
press + 350, a two-pair dual run settling at its last press + 350, an
immediate sequential emission at 250, and the three-pending-timers trace. -/
theorem c5_amended_witness :
    chainOk 0 [10, 20] ∧ (0 : ℤ) ≤ ((0 : ℤ), (10 : ℤ)).2 ∧
      ((0 : ℤ), (10 : ℤ)).2 < DUAL_BUTTON_TIMEOUT ∧
      pairChainOk ((0 : ℤ), (10 : ℤ)) [(100, 10)] ∧
      DUAL_BUTTON_TIMEOUT < (250 : ℤ) ∧ (250 : ℤ) < CLICK_TIMEOUT ∧
      (runT (((0 : ℤ) :: [10, 20]).map (fun u => (Button.on, u))) =
          [(repeatToken Button.on (min ((0 : ℤ) :: [10, 20]).length 5),
            [(10 : ℤ), 20].getLastD 0 + CLICK_TIMEOUT)] ∧
        runT (pairTrace Button.on (((0 : ℤ), (10 : ℤ)) :: [(100, 10)])) =
          [(dualToken (min ([((100 : ℤ), (10 : ℤ))].length + 1) 3),
            ([((100 : ℤ), (10 : ℤ))].getLastD (0, 10)).1 +
              ([((100 : ℤ), (10 : ℤ))].getLastD (0, 10)).2 + CLICK_TIMEOUT)] ∧
        runT [(Button.on, 0), (Button.on.other, 0 + 250)] =
          [(emit_sequential_press Button.on Button.on.other, 0 + 250)] ∧
        ((runState [(Button.on, 0), (.off, 10), (.on, 100), (.off, 300)]).timerOn =
            some 450 ∧
          (runState [(Button.on, 0), (.off, 10), (.on, 100), (.off, 300)]).timerOff =
            some 650 ∧
          (runState [(Button.on, 0), (.off, 10), (.on, 100), (.off, 300)]).timerDual =
            some 360)) :=
  ⟨by decide, by decide, by decide, by decide, by decide, by decide,
    c5_amended_settle_except_sequential Button.on 0 250 [10, 20] (0, 10) [(100, 10)]
      (by decide) (by decide) (by decide) (by decide) (by decide) (by decide)⟩

/-- C7: two presses of different buttons with gap strictly between the
coincidence window and the click timeout emit exactly one token, the two
button names joined in arrival order, at the moment of the second press. -/
theorem c7_sequential_pair_ordered (b : Button) (t0 δ : ℤ)
    (hd : DUAL_BUTTON_TIMEOUT < δ) (hc : δ < CLICK_TIMEOUT) :
    runT [(b, t0), (b.other, t0 + δ)] =
      [(emit_sequential_press b b.other, t0 + δ)] := by
  unfold runT
  rw [runAux_seq_head b t0 δ [] hd hc]
  simp [runAux, fireLoop_initState]

/-- Witness for C7: `off` at 0 then `on` at 300 ms yield exactly `off_on`. -/
theorem c7_sequential_pair_ordered_witness :
    DUAL_BUTTON_TIMEOUT < (300 : ℤ) ∧ (300 : ℤ) < CLICK_TIMEOUT ∧
      runT [(Button.off, 0), (Button.off.other, 0 + 300)] =
        [(emit_sequential_press Button.off Button.off.other, 0 + 300)] :=
  ⟨by decide, by decide, c7_sequential_pair_ordered Button.off 0 300 (by decide) (by decide)⟩

/-- C8: a cancelled (stale) timer callback is a silent no-op on EVERY
cluster state — including a buffer already rebuilt by a new sequence after
the cancellation — with no emission and no state change; and an uncancelled
timer firing with a zero accumulated count emits nothing (for the per-button
and the dual machine alike). -/
theorem c8_stale_timer_silent_noop (s : ClusterState) (b : Button) (ft : ℤ) :
    process_clicks s b true ft = (s, []) ∧
    process_dual_clicks s true ft = (s, []) ∧
    (clickCount s b = 0 → (process_clicks s b false ft).2 = []) ∧
    (s.countDual = 0 → (process_dual_clicks s false ft).2 = []) := by
  refine ⟨rfl, rfl, fun hz => ?_, fun hzd => ?_⟩
  · simp [process_clicks, hz]
  · simp [process_dual_clicks, hzd]

/-- Witness for C8, exercising the rebuilt-buffer case: a stale fire against
a cluster holding a fresh new press (count 1, its own pending timer) leaves
it untouched and emits nothing; zero-count fires on the fresh cluster also
emit nothing. -/
theorem c8_stale_timer_silent_noop_witness :
    (process_clicks (pressedState Button.on 100 0 none none none)
        Button.on true 350 =
      (pressedState Button.on 100 0 none none none, []) ∧
      process_dual_clicks (pressedState Button.on 100 0 none none none)
        true 350 =
        (pressedState Button.on 100 0 none none none, [])) ∧
    ((process_clicks initState Button.on false 350).2 = [] ∧
      (process_dual_clicks initState false 350).2 = []) :=
  ⟨⟨(c8_stale_timer_silent_noop
      (pressedState Button.on 100 0 none none none) Button.on 350).1,
    (c8_stale_timer_silent_noop
      (pressedState Button.on 100 0 none none none) Button.on 350).2.1⟩,
   ⟨(c8_stale_timer_silent_noop initState Button.on 350).2.2.1 rfl,
    (c8_stale_timer_silent_noop initState Button.on 350).2.2.2 rfl⟩⟩

/-- C9: an already-settled sequence does not contaminate a later one — a
press of the other button more than `CLICK_TIMEOUT` after the first button's
press yields exactly two emissions, one single-press token each, in order. -/
theorem c9_sequences_independent (b : Button) (t0 t1 : ℤ)
    (h : t0 + CLICK_TIMEOUT < t1) :
    runT [(b, t0), (b.other, t1)] =
      [(emit_single_click b, t0 + CLICK_TIMEOUT),
       (emit_single_click b.other, t1 + CLICK_TIMEOUT)] := by
  unfold runT
  simp only [runAux]
  rw [fireLoop_initState, handle_click_fresh]
  rw [fireLoop_midState_due b 1 t0 t1 le_rfl (by omega)]
  rw [handle_click_stale b t0 t1 h]
  rw [flush_staleState b t0 t1]
  norm_num [repeatToken]

/-- Witness for C9: `on` at 0, `off` at 400 ms, two single emissions. -/
theorem c9_sequences_independent_witness :
    (0 : ℤ) + CLICK_TIMEOUT < 400 ∧
      runT [(Button.on, 0), (Button.on.other, 400)] =
        [(emit_single_click Button.on, 0 + CLICK_TIMEOUT),
         (emit_single_click Button.on.other, 400 + CLICK_TIMEOUT)] :=
  ⟨by decide, c9_sequences_independent Button.on 0 400 (by decide)⟩

/-- C10: finalization by the settle timer is a partial reset — the fired
button's counter and timer are cleared but its last-press record is kept —
while the dual and sequential detection branches clear both buttons'
last-press records. -/
theorem c10_partial_state_reset (s : ClusterState) (b : Button) (ft now tO : ℤ)
    (hO : lastButtonPress s b.other = some tO) :
    (clickCount (process_clicks s b false ft).1 b = 0 ∧
      clickTimer (process_clicks s b false ft).1 b = none ∧
      lastButtonPress (process_clicks s b false ft).1 b = lastButtonPress s b) ∧
    (|now - tO| < DUAL_BUTTON_TIMEOUT →
      (handle_click s b now).1.lastOn = none ∧
        (handle_click s b now).1.lastOff = none) ∧
    (DUAL_BUTTON_TIMEOUT < now - tO → now - tO < CLICK_TIMEOUT →
      (handle_click s b now).1.lastOn = none ∧
        (handle_click s b now).1.lastOff = none) := by
  refine ⟨?_, ?_, ?_⟩
  · cases b <;>
      simp [process_clicks, clickCount, setClickCount, clickTimer, setClickTimer,
        lastButtonPress]
  · intro habs
    cases b <;>
      simp_all [handle_click, lastButtonPress, setLastButtonPress, setClickCount,
        setClickTimer, clickCount, Button.other, handle_dual_click]
  · intro h1 h2
    cases b <;>
      simp_all [handle_click, lastButtonPress, setLastButtonPress, setClickCount,
        setClickTimer, clickCount, Button.other, handle_dual_click] <;>
      split_ifs <;> simp

/-- Witness for C10 at a state holding a fresh `off` press. -/
theorem c10_partial_state_reset_witness :
    lastButtonPress (⟨0, 1, 0, none, some 550, none, none, some 0, none, none⟩ :
        ClusterState) Button.on.other = some 0 ∧
      (clickCount (process_clicks
          (⟨0, 1, 0, none, some 550, none, none, some 0, none, none⟩ : ClusterState)
          Button.on false 50).1 Button.on = 0 ∧
        clickTimer (process_clicks
          (⟨0, 1, 0, none, some 550, none, none, some 0, none, none⟩ : ClusterState)
          Button.on false 50).1 Button.on = none ∧
        lastButtonPress (process_clicks
          (⟨0, 1, 0, none, some 550, none, none, some 0, none, none⟩ : ClusterState)
          Button.on false 50).1 Button.on =
          lastButtonPress
            (⟨0, 1, 0, none, some 550, none, none, some 0, none, none⟩ : ClusterState)
            Button.on) ∧
      (|(100 : ℤ) - 0| < DUAL_BUTTON_TIMEOUT →
        (handle_click (⟨0, 1, 0, none, some 550, none, none, some 0, none, none⟩ :
            ClusterState) Button.on 100).1.lastOn = none ∧
          (handle_click (⟨0, 1, 0, none, some 550, none, none, some 0, none, none⟩ :
            ClusterState) Button.on 100).1.lastOff = none) ∧
      (DUAL_BUTTON_TIMEOUT < (100 : ℤ) - 0 → (100 : ℤ) - 0 < CLICK_TIMEOUT →
        (handle_click (⟨0, 1, 0, none, some 550, none, none, some 0, none, none⟩ :
            ClusterState) Button.on 100).1.lastOn = none ∧
          (handle_click (⟨0, 1, 0, none, some 550, none, none, some 0, none, none⟩ :
            ClusterState) Button.on 100).1.lastOff = none) :=
  ⟨rfl, c10_partial_state_reset
    (⟨0, 1, 0, none, some 550, none, none, some 0, none, none⟩ : ClusterState)
    Button.on 50 100 0 rfl⟩

end Rodret
